import Mathlib

/-!
Verification of the MinutAI pipeline server (`src/server.js`).

The file shallowly embeds the pipeline orchestrator of `server.js`:
time formatting (`fmtTime`), the defensive extraction of the Deepgram
transcription response, the diarized-text block construction, the
speaker-label set of the `complete` payload, the markdown-to-PDF token
walk (`renderMarkdownToPDF`), and the SSE event sequence of the
`/api/process` request handler, including its error handling, render
timeout and `finally` cleanup.

External collaborators (the Deepgram SDK, the OpenAI SDK, `JSON.parse`,
`encodeURIComponent`, the PDFKit stream outcome, `fs.unlinkSync`) are
modelled as inputs in an environment record: the embedding is the repo's
own control flow over those outcomes.
-/

set_option maxRecDepth 4000

/-- A JavaScript value appearing in an utterance's `start`/`end` field.
The values of `typeof secs === 'number'` are the IEEE binary64 doubles:
a finite double is a dyadic rational, so `num m e` stands for the finite
value `m / 2^e` (with `m : ℤ`, `e : ℕ`); `nan` and `inf neg` are the
non-finite doubles `NaN` and `±Infinity` (also of typeof `'number'`);
`nonNum` is any other value (`undefined`, a string, ...), which
`typeof secs !== 'number'` rejects. -/
inductive JsVal where
  | num (m : ℤ) (e : ℕ)
  | nan
  | inf (negative : Bool)
  | nonNum
deriving DecidableEq, Repr

/-- Two-digit zero-padding of the fractional part, `n < 100` expected. -/
def pad2 (n : ℕ) : String :=
  if n < 10 then "0" ++ toString n else toString n

/-- Hundredths of the non-negative value `a / 2^e`, rounded to nearest
with ties upward: `⌊a/2^e * 100 + 1/2⌋ = (200*a + 2^e) / 2^(e+1)`. -/
def centsOf (a : ℕ) (e : ℕ) : ℕ :=
  (200 * a + 2 ^ e) / 2 ^ (e + 1)

/-- Decimal rendering of a non-negative number of hundredths with
exactly two fraction digits. -/
def centsToString (cents : ℕ) : String :=
  toString (cents / 100) ++ "." ++ pad2 (cents % 100)

/-- Exponential decimal notation of a positive integer, as ECMA
`Number::toString` renders magnitudes of at least `10^21`: leading
significant digit, remaining significant digits after a dot (trailing
zeros stripped), then `e+` and the decimal exponent.  ECMA additionally
shortens the digits to the fewest that round-trip among binary64
doubles, a notion not available on this model's arbitrary-precision
dyadics; the exact significant digits used here agree with the program
on decimally-round doubles such as `1e21`. -/
def jsExpToString (n : ℕ) : String :=
  let ds := (toString n).data
  let sig := (ds.reverse.dropWhile (fun c => c = '0')).reverse
  match sig with
  | [] => "0"
  | d :: rest =>
    (if rest.isEmpty then String.mk [d]
      else String.mk [d] ++ "." ++ String.mk rest)
      ++ "e+" ++ toString (ds.length - 1)

/-- Magnitude branch of ECMA toFixed for the non-negative finite value
`a / 2^e`: a magnitude of at least `10^21` falls back to
`Number::toString` in exponential notation (every binary64 double of
that magnitude is an integer, so the division is exact on the program's
values); otherwise fixed notation, the value rounded to the nearest
hundredth (ties picking the larger count) and printed with exactly two
fraction digits. -/
def toFixed2Abs (a : ℕ) (e : ℕ) : String :=
  if 10 ^ 21 * 2 ^ e ≤ a then jsExpToString (a / 2 ^ e)
  else centsToString (centsOf a e)

/-- Embedding of `x.toFixed(2)` for the finite JS number `m / 2^e`, per
ECMA `Number.prototype.toFixed`: a leading sign for negative values,
then the absolute value rendered by the magnitude branch (exponential
`Number::toString` from `10^21` up, two fraction digits below). -/
def toFixed2 (m : ℤ) (e : ℕ) : String :=
  if m < 0 then "-" ++ toFixed2Abs (-m).toNat e
  else toFixed2Abs m.toNat e

/-- Embedding of `fmtTime` (server.js:47-50): non-numbers render as the
literal `"0.00"` (no unit); every value of typeof `'number'` renders as
`secs.toFixed(2) + 's'`, where toFixed on the non-finite doubles
returns `Number::toString(x)` per ECMA (`"NaN"`, `"Infinity"`,
`"-Infinity"`). -/
def fmtTime (secs : JsVal) : String :=
  match secs with
  | .nonNum => "0.00"
  | .nan => "NaN" ++ "s"
  | .inf neg => (if neg then "-Infinity" else "Infinity") ++ "s"
  | .num m e => toFixed2 m e ++ "s"

/-- One utterance of the Deepgram response: `speaker` may be absent
(`u.speaker !== undefined` is the code's test), `start`/`end` are JS
values, `transcript` is the utterance text (server.js:232 reads
`u.transcript`). -/
structure DgUtterance where
  speaker : Option ℕ
  start : JsVal
  «end» : JsVal
  transcript : String
deriving DecidableEq, Repr

/-- One alternative of a Deepgram channel; `transcript` may be absent. -/
structure DgAlternative where
  transcript : Option String
deriving DecidableEq, Repr

/-- One Deepgram channel. -/
structure DgChannel where
  alternatives : List DgAlternative
deriving DecidableEq, Repr

/-- The `results` object of a Deepgram response. -/
structure DgResults where
  channels : List DgChannel
  utterances : Option (List DgUtterance)
deriving DecidableEq, Repr

/-- A Deepgram pre-recorded transcription response; `results` may be
absent. A `none` at the outer `Option DgResp` models the `dgResp = null`
left by a caught provider error (server.js:201-214). -/
structure DgResp where
  results : Option DgResults
deriving DecidableEq, Repr

/-- Extraction
`dgResp?.results?.channels?.[0]?.alternatives?.[0]?.transcript || ''`
(server.js:220): every missing nesting level degrades to `""`. -/
def extractTranscript (r : Option DgResp) : String :=
  match r with
  | none => ""
  | some resp =>
    match resp.results with
    | none => ""
    | some rs =>
      match rs.channels.head? with
      | none => ""
      | some ch =>
        match ch.alternatives.head? with
        | none => ""
        | some alt =>
          match alt.transcript with
          | none => ""
          | some t => t

/-- Extraction `dgResp?.results?.utterances || []` (server.js:221). -/
def extractUtterances (r : Option DgResp) : List DgUtterance :=
  match r with
  | none => []
  | some resp =>
    match resp.results with
    | none => []
    | some rs => rs.utterances.getD []

/-- Speaker label used in the diarized-text block (server.js:231):
the explicit id when present, otherwise the 1-based position `i+1`. -/
def speakerLabel (u : DgUtterance) (i : ℕ) : String :=
  match u.speaker with
  | some s => "SPEAKER_" ++ toString s
  | none => "SPEAKER_" ++ toString (i + 1)

/-- One line of the diarized-text block (server.js:232). -/
def diarizedLine (u : DgUtterance) (i : ℕ) : String :=
  "(" ++ fmtTime u.start ++ " - " ++ fmtTime u.«end» ++ ") "
    ++ speakerLabel u i ++ ": " ++ u.transcript ++ "\n"

/-- The fallback marker used when no transcript at all is available. -/
def noTranscriptMarker : String := "No se pudo transcribir con Deepgram."

/-- The `diarized_text` construction (server.js:228-236): a `forEach`
accumulating one line per utterance when the list is non-empty,
otherwise `transcript || 'No se pudo transcribir con Deepgram.'`. -/
def buildDiarizedText (utterances : List DgUtterance) (transcript : String) : String :=
  if utterances.length > 0 then
    utterances.enum.foldl (fun acc p => acc ++ diarizedLine p.2 p.1) ""
  else
    if transcript = "" then noTranscriptMarker else transcript

/-- Speaker label used in the `complete` payload's `speakers` set
(server.js:345): the explicit id when present, otherwise the constant
`SPEAKER_0`. -/
def speakerSetLabel (u : DgUtterance) : String :=
  match u.speaker with
  | some s => "SPEAKER_" ++ toString s
  | none => "SPEAKER_0"

/-- Embedding of `[...new Set(xs)]`: deduplication keeping first-occurrence order. -/
def uniqueOrdered (l : List String) : List String :=
  l.foldl (fun acc s => if s ∈ acc then acc else acc ++ [s]) []

/-- The `speakers` list of the `complete` payload (server.js:344-346). -/
def speakers (utterances : List DgUtterance) : List String :=
  uniqueOrdered (utterances.map speakerSetLabel)

/-- A JSON value, as produced by a successful `JSON.parse`. -/
inductive JsonValue where
  | null
  | bool (b : Bool)
  | num (q : ℚ)
  | str (s : String)
  | arr (xs : List JsonValue)
  | obj (fields : List (String × JsonValue))

/-- The `minuta` value after the parse step (server.js:308-313): either
the parsed JSON object or the raw-text fallback `{ raw: content }`. -/
inductive Minuta where
  | parsed (j : JsonValue)
  | raw (text : String)

/-- Outcome of the `Promise.race` around PDF generation
(server.js:323-340): the write stream finished, the write stream
errored, or the 30-second timer fired first. -/
inductive RenderOutcome where
  | ok
  | streamError (msg : String)
  | timeout
deriving DecidableEq, Repr

/-- The payload of the terminal `complete` event (server.js:347-354). -/
structure CompletePayload where
  model : String
  minuta : Minuta
  resumen_md : String
  pdf_url : String
  speakers : List String
  transcript : String
  utterances_count : ℕ

/-- One server-sent event of the `/api/process` stream. -/
inductive SSEEvent where
  | progress (step : String)
  | complete (payload : CompletePayload)
  | error (message : String) (details : String)

/-- Outcome of the best-effort `fs.unlinkSync` in the `finally` block
(server.js:362-364). -/
inductive CleanupOutcome where
  | deleted
  | deleteFailedIgnored
deriving DecidableEq, Repr

/-- The environment of one `/api/process` run: the outcomes of every
external collaborator call the handler makes.  `dgCall` is the Deepgram
promise (a rejection is caught locally, server.js:212-214); `minutaCall`
and `resumenCall` are the two OpenAI calls, resolved to
`choices[0].message.content` (a rejection, or a missing shape throwing a
TypeError, is the `Except.error` case and hits the outer catch);
`resumenCall` carries `Option String` because the code applies `|| ''`
to the content; `parseJson` is the `JSON.parse` builtin; `render` is the
outcome of the PDF `Promise.race`; `unlinkOk` is whether `fs.unlinkSync`
succeeds; `encodeURIComponent` is the JS builtin; `modelId` and
`fileName` are the configured model and the uploaded file's basename. -/
structure Env where
  dgCall : Except String DgResp
  minutaCall : Except String String
  resumenCall : Except String (Option String)
  parseJson : String → Option JsonValue
  render : RenderOutcome
  unlinkOk : Bool
  encodeURIComponent : String → String
  modelId : String
  fileName : String

/-- The `dgResp` variable after the guarded Deepgram call: `null` when the provider
call rejected (the rejection is only logged), the response otherwise. -/
def dgRespOf (env : Env) : Option DgResp :=
  match env.dgCall with
  | .ok r => some r
  | .error _ => none

/-- The `transcript` variable of the handler (server.js:220). -/
def transcriptOf (env : Env) : String :=
  extractTranscript (dgRespOf env)

/-- The `utterances` variable of the handler (server.js:221). -/
def utterancesOf (env : Env) : List DgUtterance :=
  extractUtterances (dgRespOf env)

/-- The `diarized_text` variable of the handler (server.js:228-236). -/
def diarizedTextOf (env : Env) : String :=
  buildDiarizedText (utterancesOf env) (transcriptOf env)

/-- The five `progress` events of a full run, in emission order
(server.js:198, 238, 241, 274, 317). -/
def stageList (env : Env) : List SSEEvent :=
  [ .progress "Transcribiendo audio con Deepgram...",
    .progress ("Transcripción completa. " ++ toString (utterancesOf env).length
      ++ " utterances detectadas."),
    .progress "Generando minuta estructurada (JSON)...",
    .progress "Minuta JSON generada. Generando resumen ejecutivo...",
    .progress "Generando PDF..." ]

/-- The `minuta` value (server.js:308-313), defined when both generation
calls resolved: the parsed JSON when `JSON.parse` succeeds, the raw-text
wrapper when it throws. -/
def minutaOf (env : Env) : Option Minuta :=
  match env.minutaCall, env.resumenCall with
  | .ok mc, .ok _ =>
    some (match env.parseJson mc with
          | some j => .parsed j
          | none => .raw mc)
  | _, _ => none

/-- The result of one `/api/process` run, as observed at the HTTP
boundary: the SSE events written in order, whether `res.end()` was
called, how many times deletion of the upload was attempted, and the
cleanup outcome. -/
structure RunResult where
  events : List SSEEvent
  closed : Bool
  unlinkAttempts : ℕ
  cleanup : CleanupOutcome

/-- The SSE events of one run, following the handler's control flow
(server.js:196-361): progress; guarded Deepgram call; extraction;
diarized text; progress; minuta call (a rejection hits the catch);
progress; resumen call (likewise); JSON parse with raw fallback;
progress; PDF `Promise.race`; then either the `complete` payload or the
catch's `error` event. -/
def eventsOf (env : Env) : List SSEEvent :=
  let p1 : SSEEvent := .progress "Transcribiendo audio con Deepgram..."
  let p2 : SSEEvent := .progress ("Transcripción completa. "
    ++ toString (utterancesOf env).length ++ " utterances detectadas.")
  let p3 : SSEEvent := .progress "Generando minuta estructurada (JSON)..."
  let errEvent : String → SSEEvent := fun details =>
    .error "Fallo procesando el audio" details
  match env.minutaCall with
  | .error msg => [p1, p2, p3, errEvent msg]
  | .ok mc =>
    let p4 : SSEEvent := .progress "Minuta JSON generada. Generando resumen ejecutivo..."
    match env.resumenCall with
    | .error msg => [p1, p2, p3, p4, errEvent msg]
    | .ok rcContent =>
      let minuta : Minuta :=
        match env.parseJson mc with
        | some j => .parsed j
        | none => .raw mc
      let resumen_md := rcContent.getD ""
      let p5 : SSEEvent := .progress "Generando PDF..."
      let pdfName := env.fileName ++ ".pdf"
      match env.render with
      | .streamError msg => [p1, p2, p3, p4, p5, errEvent msg]
      | .timeout => [p1, p2, p3, p4, p5, errEvent "PDF generation timed out after 30s"]
      | .ok =>
        [ p1, p2, p3, p4, p5,
          .complete
            { model := env.modelId
              minuta := minuta
              resumen_md := resumen_md
              pdf_url := "/download/" ++ env.encodeURIComponent pdfName
              speakers := speakers (utterancesOf env)
              transcript := transcriptOf env
              utterances_count := (utterancesOf env).length } ]

/-- One `/api/process` run with a file supplied: the try/catch emits the
events, `res.end()` always runs, and the `finally` block attempts
`fs.unlinkSync(filePath)` exactly once, swallowing a failure. -/
def processRequest (env : Env) : RunResult :=
  { events := eventsOf env
    closed := true
    unlinkAttempts := 1
    cleanup := if env.unlinkOk then .deleted else .deleteFailedIgnored }

/-- An inline child token of a markdown-it `inline` token, restricted to
the kinds `inlineToSegments` (server.js:62-82) distinguishes; every
other child kind (em markers, links, ...) is skipped and modelled by
`other`. -/
inductive InlineTok where
  | strong_open
  | strong_close
  | softbreak
  | text (content : String)
  | code_inline (content : String)
  | other
deriving DecidableEq, Repr

/-- A text segment with its bold flag, as pushed by `inlineToSegments`. -/
structure Segment where
  text : String
  bold : Bool
deriving DecidableEq, Repr

/-- The loop of `inlineToSegments` (server.js:62-82): `buf` accumulates
text, `bold` toggles at strong markers, a non-empty `buf` is flushed at
each toggle and at the end (`if (buf)` — the empty string is falsy). -/
def inlineLoop : List InlineTok → String → Bool → List Segment
  | [], buf, bold => if buf ≠ "" then [⟨buf, bold⟩] else []
  | c :: cs, buf, bold =>
    match c with
    | .strong_open =>
      (if buf ≠ "" then [⟨buf, bold⟩] else []) ++ inlineLoop cs "" true
    | .strong_close =>
      (if buf ≠ "" then [⟨buf, bold⟩] else []) ++ inlineLoop cs "" false
    | .softbreak => inlineLoop cs (buf ++ " ") bold
    | .text s => inlineLoop cs (buf ++ s) bold
    | .code_inline s => inlineLoop cs (buf ++ s) bold
    | .other => inlineLoop cs buf bold

/-- Embedding of `inlineToSegments` (server.js:62-82). -/
def inlineToSegments (children : List InlineTok) : List Segment :=
  inlineLoop children "" false

/-- A markdown-it block-level token, restricted to the kinds
`renderMarkdownToPDF` (server.js:85-163) distinguishes; `inline` carries
`Option` children because the code tests `token.children` for
truthiness; all unrecognized token kinds fall through the loop and are
modelled by `other`. -/
inductive MdToken where
  | heading_open (tag : String)
  | heading_close (tag : String)
  | bullet_list_open
  | bullet_list_close
  | ordered_list_open
  | ordered_list_close
  | list_item_open
  | list_item_close
  | paragraph_open
  | paragraph_close
  | table_open
  | table_close
  | thead_open
  | thead_close
  | tbody_open
  | tbody_close
  | tr_open
  | tr_close
  | th_open
  | th_close
  | td_open
  | td_close
  | inline (children : Option (List InlineTok))
  | hr
  | fence (content : String)
  | code_block (content : String)
  | other
deriving DecidableEq, Repr

/-- A PDFKit layout command, as issued by `renderMarkdownToPDF`:
`fontSize`, `font`, a `text` run with its `indent` and optional
`lineGap` options, `moveDown` with its fractional line count recorded
in tenths of a line (the code passes 0.3, 0.4, 0.5), and the stroked
horizontal line of the `hr` branch. -/
inductive DocCmd where
  | fontSize (n : ℕ)
  | font (name : String)
  | text (s : String) (indent : ℕ) (lineGap : Option ℕ)
  | moveDown (tenths : ℕ)
  | hrLine
deriving DecidableEq, Repr

/-- Walker state of `renderMarkdownToPDF`: the `isBullet` and `inTable`
flags (server.js:87-88). -/
structure RState where
  isBullet : Bool
  inTable : Bool
deriving DecidableEq, Repr

/-- Removal of the first occurrence of a character, as JS
`tag.replace('h', '')` does for a single-character pattern. -/
def replaceFirstChar : List Char → Char → List Char
  | [], _ => []
  | c :: rest, target => if c = target then rest else c :: replaceFirstChar rest target

/-- JS `parseInt(s, 10)` restricted to what the heading tags need: the
leading run of decimal digits, `NaN` (here `none`) when there is none. -/
def parseIntPrefix (s : String) : Option ℕ :=
  let ds := s.data.takeWhile Char.isDigit
  if ds.isEmpty then none
  else some (ds.foldl (fun n c => n * 10 + (c.toNat - Char.toNat '0')) 0)

/-- Embedding of `parseInt(token.tag.replace('h', ''), 10)` (server.js:95). -/
def headingLevel (tag : String) : Option ℕ :=
  parseIntPrefix (String.mk (replaceFirstChar tag.data 'h'))

/-- The fixed heading level→size table (server.js:96). -/
def headingSizes (level : ℕ) : Option ℕ :=
  match level with
  | 1 => some 18
  | 2 => some 16
  | 3 => some 14
  | 4 => some 13
  | 5 => some 12
  | 6 => some 11
  | _ => none

/-- One iteration of the token loop of `renderMarkdownToPDF`
(server.js:90-162): returns the updated walker state and the PDFKit
commands issued for this token. -/
def renderToken (st : RState) (token : MdToken) : RState × List DocCmd :=
  match token with
  | .heading_open tag =>
    let size := ((headingLevel tag).bind headingSizes).getD 14
    (st, [.fontSize size, .font "Helvetica-Bold"])
  | .heading_close _ =>
    (st, [.moveDown 3, .fontSize 11, .font "Helvetica"])
  | .bullet_list_open => ({ st with isBullet := true }, [])
  | .bullet_list_close => ({ st with isBullet := false }, [.moveDown 3])
  | .ordered_list_open => ({ st with isBullet := true }, [])
  | .ordered_list_close => ({ st with isBullet := false }, [.moveDown 3])
  | .list_item_open => (st, [])
  | .list_item_close => (st, [])
  | .paragraph_open => (st, [])
  | .paragraph_close =>
    (st, if !st.isBullet && !st.inTable then [.moveDown 4] else [])
  | .table_open => ({ st with inTable := true }, [])
  | .table_close => ({ st with inTable := false }, [.moveDown 3])
  | .thead_open => (st, [])
  | .thead_close => (st, [])
  | .tbody_open => (st, [])
  | .tbody_close => (st, [])
  | .tr_open => (st, [])
  | .tr_close => (st, [])
  | .th_open => (st, [])
  | .th_close => (st, [])
  | .td_open => (st, [])
  | .td_close => (st, [])
  | .inline children =>
    match children with
    | none => (st, [])
    | some cs =>
      let segments := inlineToSegments cs
      if segments.length = 0 then (st, [])
      else
        let pfx := if st.isBullet then "  •  " else ""
        let fullText := pfx ++ String.join (segments.map Segment.text)
        let hasBold := segments.any Segment.bold
        (st,
          [ .font (if hasBold then "Helvetica-Bold" else "Helvetica"),
            .fontSize 11,
            .text fullText (if st.isBullet then 20 else 0) (some 2),
            .font "Helvetica" ])
  | .hr =>
    (st, [.moveDown 5, .hrLine, .moveDown 5])
  | .fence content =>
    (st, [.fontSize 10, .font "Courier", .text content 10 none,
          .font "Helvetica", .fontSize 11, .moveDown 3])
  | .code_block content =>
    (st, [.fontSize 10, .font "Courier", .text content 10 none,
          .font "Helvetica", .fontSize 11, .moveDown 3])
  | .other => (st, [])

/-- Embedding of `renderMarkdownToPDF` (server.js:85-163) over its token stream: the
parse by markdown-it is the external tokenizer, so the embedding takes
the token list and folds the loop body over it, collecting the PDFKit
commands in order. -/
def renderMarkdownToPDF (tokens : List MdToken) : List DocCmd :=
  (tokens.foldl
    (fun acc token =>
      let step := renderToken acc.1 token
      (step.1, acc.2 ++ step.2))
    (⟨⟨false, false⟩, []⟩ : RState × List DocCmd)).2

/-- Whether an SSE event is a `progress` event. -/
def isProgressEvent : SSEEvent → Bool
  | .progress _ => true
  | _ => false

/-- Whether an SSE event is terminal (`complete` or `error`). -/
def isTerminalEvent : SSEEvent → Bool
  | .progress _ => false
  | _ => true

/-- A concrete environment used to instantiate run-level theorems:
the Deepgram call rejects, both generation calls resolve, `JSON.parse`
fails on everything, rendering finishes in time, cleanup succeeds. -/
def sampleEnv : Env :=
  { dgCall := .error "DG down"
    minutaCall := .ok "not json"
    resumenCall := .ok (some "# Resumen")
    parseJson := fun _ => none
    render := .ok
    unlinkOk := true
    encodeURIComponent := id
    modelId := "gpt-4.1-mini"
    fileName := "170000-audio.mp3" }

/-! ### Helper lemmas -/

/-- Folding string concatenation starting from `a` factors `a` out. -/
theorem string_foldl_append_shift (l : List String) :
    ∀ a : String, l.foldl (· ++ ·) a = a ++ l.foldl (· ++ ·) "" := by
  induction l with
  | nil => intro a; simp
  | cons x xs ih =>
    intro a
    simp only [List.foldl_cons]
    rw [ih (a ++ x), ih ("" ++ x)]
    simp [String.append_assoc, String.empty_append]

/-- The function `String.join` distributes over `cons`. -/
theorem string_join_cons (s : String) (l : List String) :
    String.join (s :: l) = s ++ String.join l := by
  simp only [String.join, List.foldl_cons]
  rw [string_foldl_append_shift]
  simp [String.empty_append]

/-- Folding `acc ++ g x` from the empty string is the join of the map. -/
theorem string_foldl_eq_join {α : Type} (g : α → String) :
    ∀ l : List α, l.foldl (fun acc x => acc ++ g x) "" = String.join (l.map g) := by
  intro l
  induction l with
  | nil => rfl
  | cons x xs ih =>
    simp only [List.foldl_cons, List.map_cons]
    have hshift : ∀ (ys : List α) (a : String),
        ys.foldl (fun acc y => acc ++ g y) a = a ++ ys.foldl (fun acc y => acc ++ g y) "" := by
      intro ys
      induction ys with
      | nil => intro a; simp
      | cons z zs ihz =>
        intro a
        simp only [List.foldl_cons]
        rw [ihz (a ++ g z), ihz ("" ++ g z)]
        simp [String.append_assoc, String.empty_append]
    rw [hshift, string_join_cons, ih]
    simp [String.empty_append]

/-- The padding `pad2` always yields exactly two digit characters below 100. -/
theorem pad2_two_digits : ∀ n : ℕ, n < 100 →
    (pad2 n).length = 2 ∧ (pad2 n).data.all Char.isDigit = true := by decide

/-- The format of `fmtTime` on every finite number of magnitude below
`10^21` (the domain of ECMA toFixed's fixed-notation branch): some
string, a dot, exactly two digits, and the trailing unit `s`. -/
theorem fmtTime_num_format (m : ℤ) (e : ℕ) (hmag : m.natAbs < 10 ^ 21 * 2 ^ e) :
    ∃ a frac : String, fmtTime (JsVal.num m e) = a ++ "." ++ frac ++ "s"
      ∧ frac.length = 2 ∧ frac.data.all Char.isDigit = true := by
  have hfmt : ∀ c : ℕ, ∃ a frac : String,
      centsToString c ++ "s" = a ++ "." ++ frac ++ "s"
        ∧ frac.length = 2 ∧ frac.data.all Char.isDigit = true := by
    intro c
    refine ⟨toString (c / 100), pad2 (c % 100), ?_, ?_, ?_⟩
    · simp [centsToString, String.append_assoc]
    · exact (pad2_two_digits _ (Nat.mod_lt _ (by norm_num))).1
    · exact (pad2_two_digits _ (Nat.mod_lt _ (by norm_num))).2
  show ∃ a frac, toFixed2 m e ++ "s" = a ++ "." ++ frac ++ "s" ∧ _ ∧ _
  unfold toFixed2
  by_cases hm : m < 0
  · rw [if_pos hm]
    have habs : (-m).toNat = m.natAbs := by omega
    have hlt : (-m).toNat < 10 ^ 21 * 2 ^ e := habs ▸ hmag
    rw [show toFixed2Abs (-m).toNat e = centsToString (centsOf (-m).toNat e) by
      rw [toFixed2Abs, if_neg (Nat.not_le.mpr hlt)]]
    obtain ⟨a, frac, h1, h2, h3⟩ := hfmt (centsOf (-m).toNat e)
    refine ⟨"-" ++ a, frac, ?_, h2, h3⟩
    simp only [String.append_assoc] at h1 ⊢
    rw [h1]
  · rw [if_neg hm]
    have habs : m.toNat = m.natAbs := by omega
    have hlt : m.toNat < 10 ^ 21 * 2 ^ e := habs ▸ hmag
    rw [show toFixed2Abs m.toNat e = centsToString (centsOf m.toNat e) by
      rw [toFixed2Abs, if_neg (Nat.not_le.mpr hlt)]]
    exact hfmt (centsOf m.toNat e)

/-- Membership in `uniqueOrdered` is membership in the original list. -/
theorem mem_uniqueOrdered {s : String} {l : List String} :
    s ∈ uniqueOrdered l ↔ s ∈ l := by
  have aux : ∀ (l acc : List String),
      s ∈ l.foldl (fun acc x => if x ∈ acc then acc else acc ++ [x]) acc
        ↔ s ∈ acc ∨ s ∈ l := by
    intro l
    induction l with
    | nil => intro acc; simp
    | cons x xs ih =>
      intro acc
      simp only [List.foldl_cons]
      rw [ih]
      by_cases hx : x ∈ acc
      · simp only [if_pos hx, List.mem_cons]
        constructor
        · rintro (h | h)
          · exact Or.inl h
          · exact Or.inr (Or.inr h)
        · rintro (h | h | h)
          · exact Or.inl h
          · exact Or.inl (h ▸ hx)
          · exact Or.inr h
      · simp only [if_neg hx, List.mem_append, List.mem_singleton, List.mem_cons]
        tauto
  rw [uniqueOrdered, aux]
  simp

/-! ### Claim theorems -/

/-- C1: the code synthesizes the label of an unlabeled utterance from
its 1-based position, and that synthesized label can equal the label of
an explicitly identified speaker from the same response: with an
explicit speaker `2` in first position and an unlabeled utterance in
second position (1-based position 2), both lines of the diarized block
carry `SPEAKER_2`, merging two distinct voices under one label — the
collision the claim rules out. -/
theorem C1_positional_label_collision :
    speakerLabel ⟨some 2, JsVal.num 0 0, JsVal.num 1 0, "a"⟩ 0
      = speakerLabel ⟨none, JsVal.num 1 0, JsVal.num 2 0, "b"⟩ 1
    ∧ (⟨some 2, JsVal.num 0 0, JsVal.num 1 0, "a"⟩ : DgUtterance).speaker
        ≠ (⟨none, JsVal.num 1 0, JsVal.num 2 0, "b"⟩ : DgUtterance).speaker
    ∧ buildDiarizedText
        [⟨some 2, JsVal.num 0 0, JsVal.num 1 0, "a"⟩,
         ⟨none, JsVal.num 1 0, JsVal.num 2 0, "b"⟩] ""
      = "(0.00s - 1.00s) SPEAKER_2: a\n(1.00s - 2.00s) SPEAKER_2: b\n"
    ∧ (∀ (u : DgUtterance) (i : ℕ), u.speaker = none →
        speakerLabel u i = "SPEAKER_" ++ toString (i + 1)) := by
  refine ⟨by decide, by decide, by decide, ?_⟩
  intro u i hu
  simp [speakerLabel, hu]

/-- C2 (counterexample): the claimed two-decimals-plus-trailing-`s`
rendering fails for concrete field values: a non-number `start` field
renders as the literal `"0.00"`, whose last character is not `s`; a
`NaN` field renders `"NaNs"` and the double `1e21` renders `"1e+21s"`,
neither of which contains two decimal places after a dot. -/
theorem C2_counterexample :
    buildDiarizedText [⟨some 0, JsVal.nonNum, JsVal.num 1 0, "hola"⟩] ""
      = "(0.00 - 1.00s) SPEAKER_0: hola\n"
    ∧ (fmtTime JsVal.nonNum).data.getLast? ≠ some 's'
    ∧ fmtTime JsVal.nan = "NaNs"
    ∧ fmtTime (JsVal.num (10 ^ 21) 0) = "1e+21s"
    ∧ '.' ∉ (fmtTime JsVal.nan).data
    ∧ '.' ∉ (fmtTime (JsVal.num (10 ^ 21) 0)).data := by
  refine ⟨by decide, by decide, rfl, by decide, by decide, by decide⟩

/-- C2 (amended): for every non-empty utterance sequence the diarized
block is the in-order join of exactly one line per utterance, each line
`(start_fmt - end_fmt) SPEAKER_x: text` with a newline; a finite
numeric start/end field of magnitude below `10^21` renders with exactly
two decimal digits and a trailing `s`; `NaN` and the infinities render
as their `Number::toString` forms plus the unit, magnitudes from
`10^21` up render in exponential notation plus the unit, and a
non-number field renders as the literal `"0.00"` without the unit. -/
theorem C2_diarized_block_format (us : List DgUtterance) (t : String) (h : us ≠ []) :
    buildDiarizedText us t
      = String.join (us.enum.map fun p =>
          "(" ++ fmtTime p.2.start ++ " - " ++ fmtTime p.2.«end» ++ ") "
            ++ (match p.2.speaker with
                | some s => "SPEAKER_" ++ toString s
                | none => "SPEAKER_" ++ toString (p.1 + 1))
            ++ ": " ++ p.2.transcript ++ "\n")
    ∧ (∀ m e, m.natAbs < 10 ^ 21 * 2 ^ e →
        ∃ a frac : String, fmtTime (JsVal.num m e) = a ++ "." ++ frac ++ "s"
          ∧ frac.length = 2 ∧ frac.data.all Char.isDigit = true)
    ∧ fmtTime JsVal.nan = "NaN" ++ "s"
    ∧ (∀ neg, fmtTime (JsVal.inf neg) = (if neg then "-Infinity" else "Infinity") ++ "s")
    ∧ (∀ m e, 10 ^ 21 * 2 ^ e ≤ m.natAbs → 0 ≤ m →
        fmtTime (JsVal.num m e) = jsExpToString (m.toNat / 2 ^ e) ++ "s")
    ∧ fmtTime JsVal.nonNum = "0.00" := by
  refine ⟨?_, fmtTime_num_format, rfl, fun neg => rfl, ?_, rfl⟩
  case refine_2 =>
    intro m e hmag hm
    have habs : m.toNat = m.natAbs := by omega
    show toFixed2 m e ++ "s" = _
    rw [toFixed2, if_neg (by omega), toFixed2Abs, if_pos (habs ▸ hmag)]
  unfold buildDiarizedText
  rw [if_pos (by simpa using List.length_pos.mpr h)]
  rw [string_foldl_eq_join (fun p : ℕ × DgUtterance => diarizedLine p.2 p.1) us.enum]
  congr 1

/-- C2 (witness): the amended statement instantiated at a concrete
two-utterance response. -/
theorem C2_diarized_block_format_witness :
    buildDiarizedText
        [⟨some 0, JsVal.num 0 0, JsVal.num 5 1, "Hola"⟩,
         ⟨none, JsVal.num 1331 9, JsVal.num 5 0, "Buenos días"⟩] "x"
      = String.join
          (([⟨some 0, JsVal.num 0 0, JsVal.num 5 1, "Hola"⟩,
             (⟨none, JsVal.num 1331 9, JsVal.num 5 0, "Buenos días"⟩ : DgUtterance)].enum).map
            fun p =>
          "(" ++ fmtTime p.2.start ++ " - " ++ fmtTime p.2.«end» ++ ") "
            ++ (match p.2.speaker with
                | some s => "SPEAKER_" ++ toString s
                | none => "SPEAKER_" ++ toString (p.1 + 1))
            ++ ": " ++ p.2.transcript ++ "\n") :=
  (C2_diarized_block_format _ "x" (by decide)).1

/-- C7: when the normalized utterance sequence of a provider response is
empty, the diarized block is the flat transcript when that is non-empty
and the literal fallback marker otherwise. -/
theorem C7_empty_utterances_fallback (r : Option DgResp)
    (h : extractUtterances r = []) :
    buildDiarizedText (extractUtterances r) (extractTranscript r)
      = if extractTranscript r = ""
          then "No se pudo transcribir con Deepgram."
          else extractTranscript r := by
  rw [h]
  simp [buildDiarizedText, noTranscriptMarker]

/-- C7 (witness): instantiated at the response of a failed provider
call (`dgResp = null`), where both extractions degrade to empty. -/
theorem C7_empty_utterances_fallback_witness :
    buildDiarizedText (extractUtterances none) (extractTranscript none)
      = if extractTranscript none = ""
          then "No se pudo transcribir con Deepgram."
          else extractTranscript none :=
  C7_empty_utterances_fallback none rfl

/-- C9: opening a heading of level 1-6 sets the font size from the
fixed table {1:18, 2:16, 3:14, 4:13, 5:12, 6:11} and switches to the
bold face; the matching close advances a 0.3-line gap and resets to the
regular face at 11pt. -/
theorem C9_heading_rendering (st : RState) (L : ℕ) (h1 : 1 ≤ L) (h2 : L ≤ 6) :
    renderToken st (MdToken.heading_open ("h" ++ toString L))
      = (st, [DocCmd.fontSize
                (match L with
                 | 1 => 18 | 2 => 16 | 3 => 14 | 4 => 13 | 5 => 12 | _ => 11),
              DocCmd.font "Helvetica-Bold"])
    ∧ (∀ tag : String, renderToken st (MdToken.heading_close tag)
        = (st, [DocCmd.moveDown 3, DocCmd.fontSize 11, DocCmd.font "Helvetica"])) := by
  constructor
  · interval_cases L <;> rfl
  · intro tag; rfl

/-- C9 (witness): the heading rendering statement at level 2. -/
theorem C9_heading_rendering_witness :
    renderToken ⟨false, false⟩ (MdToken.heading_open ("h" ++ toString 2))
      = (⟨false, false⟩, [DocCmd.fontSize 16, DocCmd.font "Helvetica-Bold"]) :=
  (C9_heading_rendering ⟨false, false⟩ 2 (by decide) (by decide)).1

/-- C10: an utterance lacking an explicit speaker id is mapped to the
constant `SPEAKER_0` in the complete payload's speaker set but to
`SPEAKER_{i+1}` (1-based position) in the diarized block, so the two
label sets can disagree in both directions, as the concrete one-element
run shows. -/
theorem C10_speaker_set_mismatch (us : List DgUtterance) (i : ℕ) (h : i < us.length)
    (hs : us[i].speaker = none) :
    speakerSetLabel us[i] = "SPEAKER_0"
    ∧ "SPEAKER_0" ∈ speakers us
    ∧ speakerLabel us[i] i = "SPEAKER_" ++ toString (i + 1)
    ∧ speakers [⟨none, JsVal.num 0 0, JsVal.num 1 0, "a"⟩] = ["SPEAKER_0"]
    ∧ buildDiarizedText [⟨none, JsVal.num 0 0, JsVal.num 1 0, "a"⟩] ""
        = "(0.00s - 1.00s) SPEAKER_1: a\n" := by
  have hlab : speakerSetLabel us[i] = "SPEAKER_0" := by
    simp [speakerSetLabel, hs]
  refine ⟨hlab, ?_, by simp [speakerLabel, hs], by decide, by decide⟩
  rw [speakers, mem_uniqueOrdered, ← hlab]
  exact List.mem_map_of_mem _ (List.getElem_mem h)

/-- C10 (witness): instantiated at a run whose single utterance lacks a
speaker id. -/
theorem C10_speaker_set_mismatch_witness :
    speakerSetLabel ([⟨none, JsVal.num 0 0, JsVal.num 1 0, "a"⟩][0]) = "SPEAKER_0"
    ∧ "SPEAKER_0" ∈ speakers [⟨none, JsVal.num 0 0, JsVal.num 1 0, "a"⟩] :=
  ⟨(C10_speaker_set_mismatch [⟨none, JsVal.num 0 0, JsVal.num 1 0, "a"⟩] 0
      (by decide) rfl).1,
   (C10_speaker_set_mismatch [⟨none, JsVal.num 0 0, JsVal.num 1 0, "a"⟩] 0
      (by decide) rfl).2.1⟩

/-- C3: when the PDF render races against the 30-second timer and the
timer wins, the run's terminal event is the timeout error and no
`complete` event (hence no document download locator) is ever emitted
on that stream. -/
theorem C3_render_timeout (env : Env) (mc : String) (rc : Option String)
    (hm : env.minutaCall = .ok mc) (hr : env.resumenCall = .ok rc)
    (ht : env.render = .timeout) :
    (processRequest env).events.getLast?
        = some (SSEEvent.error "Fallo procesando el audio"
            "PDF generation timed out after 30s")
    ∧ ∀ p : CompletePayload,
        SSEEvent.complete p ∉ (processRequest env).events := by
  have he : (processRequest env).events
      = [.progress "Transcribiendo audio con Deepgram...",
         .progress ("Transcripción completa. " ++ toString (utterancesOf env).length
           ++ " utterances detectadas."),
         .progress "Generando minuta estructurada (JSON)...",
         .progress "Minuta JSON generada. Generando resumen ejecutivo...",
         .progress "Generando PDF...",
         .error "Fallo procesando el audio" "PDF generation timed out after 30s"] := by
    simp [processRequest, eventsOf, hm, hr, ht]
  constructor
  · rw [he]; rfl
  · intro p
    rw [he]
    simp

/-- C3 (witness): the timeout statement at a concrete environment whose
render stage times out. -/
theorem C3_render_timeout_witness :
    (processRequest { sampleEnv with render := RenderOutcome.timeout }).events.getLast?
        = some (SSEEvent.error "Fallo procesando el audio"
            "PDF generation timed out after 30s") :=
  (C3_render_timeout { sampleEnv with render := RenderOutcome.timeout }
    "not json" (some "# Resumen") rfl rfl rfl).1

/-- C4: on every exit path of a run with a file supplied, deletion of
the uploaded artifact is attempted exactly once, and whether that
deletion succeeds changes neither the emitted events nor the closing of
the stream. -/
theorem C4_cleanup_once_best_effort (env : Env) :
    (processRequest env).unlinkAttempts = 1
    ∧ ∀ b : Bool,
        (processRequest { env with unlinkOk := b }).events
            = (processRequest env).events
        ∧ (processRequest { env with unlinkOk := b }).closed
            = (processRequest env).closed := by
  cases env
  exact ⟨rfl, fun b => ⟨rfl, rfl⟩⟩

/-- C5: when the structured-record response text is not well-formed
JSON, the run does not abort: the minuta value degrades to the raw-text
wrapper, the run still reaches the rendering stage, and a successful
render completes with that wrapped minuta in the final payload. -/
theorem C5_malformed_json_fallback (env : Env) (mc : String) (rc : Option String)
    (hm : env.minutaCall = .ok mc) (hr : env.resumenCall = .ok rc)
    (hp : env.parseJson mc = none) :
    minutaOf env = some (Minuta.raw mc)
    ∧ SSEEvent.progress "Generando PDF..." ∈ (processRequest env).events
    ∧ (env.render = .ok →
        ∃ p : CompletePayload, p.minuta = Minuta.raw mc
          ∧ (processRequest env).events.getLast? = some (SSEEvent.complete p)) := by
  refine ⟨by simp [minutaOf, hm, hr, hp], ?_, ?_⟩
  · rcases hrd : env.render with _ | msg | _ <;>
      simp [processRequest, eventsOf, hm, hr, hrd]
  · intro hok
    have he : (processRequest env).events
        = [.progress "Transcribiendo audio con Deepgram...",
           .progress ("Transcripción completa. " ++ toString (utterancesOf env).length
             ++ " utterances detectadas."),
           .progress "Generando minuta estructurada (JSON)...",
           .progress "Minuta JSON generada. Generando resumen ejecutivo...",
           .progress "Generando PDF...",
           .complete
             { model := env.modelId
               minuta := Minuta.raw mc
               resumen_md := rc.getD ""
               pdf_url := "/download/" ++ env.encodeURIComponent (env.fileName ++ ".pdf")
               speakers := speakers (utterancesOf env)
               transcript := transcriptOf env
               utterances_count := (utterancesOf env).length }] := by
      simp [processRequest, eventsOf, hm, hr, hp, hok]
    exact ⟨_, rfl, by rw [he]; rfl⟩

/-- C5 (witness): the fallback statement at a concrete environment
whose structured-record response is not JSON. -/
theorem C5_malformed_json_fallback_witness :
    minutaOf sampleEnv = some (Minuta.raw "not json")
    ∧ SSEEvent.progress "Generando PDF..." ∈ (processRequest sampleEnv).events := by
  have h := C5_malformed_json_fallback sampleEnv "not json" (some "# Resumen")
    rfl rfl rfl
  exact ⟨h.1, h.2.1⟩

/-- C6: a rejected transcription call is caught locally and degrades to
the empty transcript: the utterance list is empty, the diarized block
is the fallback marker, the run still announces the generation stage,
and when the remaining stages succeed it completes normally. -/
theorem C6_transcription_failure_nonfatal (env : Env) (e : String)
    (hd : env.dgCall = .error e) :
    transcriptOf env = ""
    ∧ utterancesOf env = []
    ∧ diarizedTextOf env = noTranscriptMarker
    ∧ SSEEvent.progress "Generando minuta estructurada (JSON)..."
        ∈ (processRequest env).events
    ∧ (∀ (mc : String) (rc : Option String),
        env.minutaCall = .ok mc → env.resumenCall = .ok rc → env.render = .ok →
        ∃ p : CompletePayload,
          (processRequest env).events.getLast? = some (SSEEvent.complete p)) := by
  have h0 : dgRespOf env = none := by simp [dgRespOf, hd]
  have h1 : transcriptOf env = "" := by simp [transcriptOf, h0, extractTranscript]
  have h2 : utterancesOf env = [] := by simp [utterancesOf, h0, extractUtterances]
  refine ⟨h1, h2, ?_, ?_, ?_⟩
  · simp [diarizedTextOf, h1, h2, buildDiarizedText]
  · rcases hm : env.minutaCall with msg | mc
    · simp [processRequest, eventsOf, hm]
    · rcases hr : env.resumenCall with msg | rc2
      · simp [processRequest, eventsOf, hm, hr]
      · rcases hrd : env.render with _ | msg | _ <;>
          simp [processRequest, eventsOf, hm, hr, hrd]
  · intro mc rc hm hr hok
    have he : (processRequest env).events
        = [.progress "Transcribiendo audio con Deepgram...",
           .progress ("Transcripción completa. " ++ toString (utterancesOf env).length
             ++ " utterances detectadas."),
           .progress "Generando minuta estructurada (JSON)...",
           .progress "Minuta JSON generada. Generando resumen ejecutivo...",
           .progress "Generando PDF...",
           .complete
             { model := env.modelId
               minuta := match env.parseJson mc with
                         | some j => Minuta.parsed j
                         | none => Minuta.raw mc
               resumen_md := rc.getD ""
               pdf_url := "/download/" ++ env.encodeURIComponent (env.fileName ++ ".pdf")
               speakers := speakers (utterancesOf env)
               transcript := transcriptOf env
               utterances_count := (utterancesOf env).length }] := by
      simp [processRequest, eventsOf, hm, hr, hok]
    exact ⟨_, by rw [he]; rfl⟩

/-- C6 (witness): the degradation statement at a concrete environment
whose Deepgram call rejects. -/
theorem C6_transcription_failure_nonfatal_witness :
    transcriptOf sampleEnv = ""
    ∧ utterancesOf sampleEnv = []
    ∧ diarizedTextOf sampleEnv = noTranscriptMarker
    ∧ SSEEvent.progress "Generando minuta estructurada (JSON)..."
        ∈ (processRequest sampleEnv).events := by
  have h := C6_transcription_failure_nonfatal sampleEnv "DG down" rfl
  exact ⟨h.1, h.2.1, h.2.2.1, h.2.2.2.1⟩

/-- C8: every run emits a prefix of the fixed pipeline-stage progress
sequence followed by exactly one terminal event; the terminal event is
the last event of the stream and the stream is closed afterwards. -/
theorem C8_stream_protocol (env : Env) :
    ∃ (k : ℕ) (t : SSEEvent),
      (processRequest env).events = (stageList env).take k ++ [t]
      ∧ (∀ ev ∈ (stageList env).take k, isProgressEvent ev = true)
      ∧ isTerminalEvent t = true
      ∧ (processRequest env).events.filter isTerminalEvent = [t]
      ∧ (processRequest env).events.getLast? = some t
      ∧ (processRequest env).closed = true := by
  rcases hm : env.minutaCall with msg | mc
  · refine ⟨3, .error "Fallo procesando el audio" msg, ?_, ?_, rfl, ?_, ?_, rfl⟩ <;>
      simp [processRequest, eventsOf, stageList, hm, isProgressEvent, isTerminalEvent]
  · rcases hr : env.resumenCall with msg | rc
    · refine ⟨4, .error "Fallo procesando el audio" msg, ?_, ?_, rfl, ?_, ?_, rfl⟩ <;>
        simp [processRequest, eventsOf, stageList, hm, hr, isProgressEvent, isTerminalEvent]
    · rcases hrd : env.render with _ | msg | _
      · refine ⟨5, .complete
            { model := env.modelId
              minuta := match env.parseJson mc with
                        | some j => Minuta.parsed j
                        | none => Minuta.raw mc
              resumen_md := rc.getD ""
              pdf_url := "/download/" ++ env.encodeURIComponent (env.fileName ++ ".pdf")
              speakers := speakers (utterancesOf env)
              transcript := transcriptOf env
              utterances_count := (utterancesOf env).length },
            ?_, ?_, rfl, ?_, ?_, rfl⟩ <;>
          simp [processRequest, eventsOf, stageList, hm, hr, hrd,
            isProgressEvent, isTerminalEvent]
      · refine ⟨5, .error "Fallo procesando el audio" msg, ?_, ?_, rfl, ?_, ?_, rfl⟩ <;>
          simp [processRequest, eventsOf, stageList, hm, hr, hrd,
            isProgressEvent, isTerminalEvent]
      · refine ⟨5, .error "Fallo procesando el audio"
            "PDF generation timed out after 30s", ?_, ?_, rfl, ?_, ?_, rfl⟩ <;>
          simp [processRequest, eventsOf, stageList, hm, hr, hrd,
            isProgressEvent, isTerminalEvent]
